import Mathlib

/-!
# Verification of the MoltBridge Python SDK core

Shallow embedding of the MoltBridge SDK's signing, challenge-solving,
error-mapping and transport-retry core (`moltbridge/auth.py`,
`moltbridge/client.py`, `moltbridge/async_client.py`, `moltbridge/errors.py`),
together with theorems settling the specification's claims about it.

Machine integers are modelled as `Nat` with explicit reduction modulo `2 ^ 32`
where the algorithms require 32-bit wraparound.  External library primitives
(the Ed25519 signing operation of PyNaCl) are modelled as an explicit function
parameter; everything computed by the repository's own code (SHA-256 digests,
canonical JSON serialization, base64url encoding, UTF-8 encoding, the retry
loop, the error taxonomy) is embedded executably.
-/

set_option maxRecDepth 100000

namespace MoltBridge

/-! ## Bytes and hex -/

/-- Lower-case hexadecimal digit for a nibble (defaults inside `0..15`). -/
def hexChar (n : Nat) : Char :=
  "0123456789abcdef".data.getD n '0'

/-- Two lower-case hex digits of one byte, most significant first. -/
def hexByte (b : Nat) : List Char :=
  [hexChar (b / 16), hexChar (b % 16)]

/-- Lower-case hex string of a byte list (Python `bytes.hex()` /
`hashlib.sha256(...).hexdigest()` output format). -/
def hexOfBytes (bs : List Nat) : String :=
  String.mk (bs.map hexByte).flatten

/-- UTF-8 encoding of one scalar value `n` (helper for `charUtf8`). -/
def natUtf8 (n : Nat) : List Nat :=
  if n < 128 then [n]
  else if n < 2048 then [192 + n / 64, 128 + n % 64]
  else if n < 65536 then [224 + n / 4096, 128 + n / 64 % 64, 128 + n % 64]
  else [240 + n / 262144, 128 + n / 4096 % 64, 128 + n / 64 % 64, 128 + n % 64]

/-- UTF-8 encoding of one character, as in Python `str.encode()`. -/
def charUtf8 (c : Char) : List Nat :=
  natUtf8 c.toNat

/-- UTF-8 bytes of a string (Python `s.encode()`). -/
def utf8Bytes (s : String) : List Nat :=
  s.data.flatMap charUtf8

/-! ## SHA-256 (as computed by `hashlib.sha256`) -/

/-- Reduce to a 32-bit word. -/
def wrap32 (n : Nat) : Nat := n % 4294967296

/-- Right rotation of a 32-bit word. -/
def rotr32 (k x : Nat) : Nat :=
  x / 2 ^ k + x % 2 ^ k * 2 ^ (32 - k)

/-- Bitwise complement within 32 bits (argument must already be `< 2^32`). -/
def not32 (x : Nat) : Nat := 4294967295 - x

/-- The 64 SHA-256 round constants (decimal). -/
def sha256K : List Nat :=
  [1116352408, 1899447441, 3049323471, 3921009573, 961987163,
   1508970993, 2453635748, 2870763221, 3624381080, 310598401,
   607225278, 1426881987, 1925078388, 2162078206, 2614888103,
   3248222580, 3835390401, 4022224774, 264347078, 604807628,
   770255983, 1249150122, 1555081692, 1996064986, 2554220882,
   2821834349, 2952996808, 3210313671, 3336571891, 3584528711,
   113926993, 338241895, 666307205, 773529912, 1294757372,
   1396182291, 1695183700, 1986661051, 2177026350, 2456956037,
   2730485921, 2820302411, 3259730800, 3345764771, 3516065817,
   3600352804, 4094571909, 275423344, 430227734, 506948616,
   659060556, 883997877, 958139571, 1322822218, 1537002063,
   1747873779, 1955562222, 2024104815, 2227730452, 2361852424,
   2428436474, 2756734187, 3204031479, 3329325298]

/-- Big-endian 8-byte encoding of a natural number (the bit-length field of
SHA-256 padding). -/
def be64 (n : Nat) : List Nat :=
  [n / 2 ^ 56 % 256, n / 2 ^ 48 % 256, n / 2 ^ 40 % 256, n / 2 ^ 32 % 256,
   n / 2 ^ 24 % 256, n / 2 ^ 16 % 256, n / 2 ^ 8 % 256, n % 256]

/-- Big-endian 4-byte encoding of a 32-bit word. -/
def be32 (n : Nat) : List Nat :=
  [n / 2 ^ 24 % 256, n / 2 ^ 16 % 256, n / 2 ^ 8 % 256, n % 256]

/-- SHA-256 message padding: `0x80`, zeros to 56 mod 64, 64-bit bit length. -/
def sha256Pad (msg : List Nat) : List Nat :=
  msg ++ [128] ++ List.replicate ((55 + 64 - msg.length % 64) % 64) 0
      ++ be64 (8 * msg.length)

/-- Split into 64-byte chunks (`fuel`-driven; fuel is the list length). -/
def chunks64 (fuel : Nat) (l : List Nat) : List (List Nat) :=
  match fuel with
  | 0 => []
  | f + 1 => if l.isEmpty then [] else l.take 64 :: chunks64 f (l.drop 64)

/-- Big-endian 32-bit word from four bytes. -/
def beWord (a b c d : Nat) : Nat := ((a * 256 + b) * 256 + c) * 256 + d

/-- The sixteen big-endian words of a 64-byte chunk. -/
def chunkWords (fuel : Nat) (l : List Nat) : List Nat :=
  match fuel with
  | 0 => []
  | f + 1 =>
    match l with
    | a :: b :: c :: d :: rest => beWord a b c d :: chunkWords f rest
    | _ => []

/-- Hash state: the eight working words of SHA-256. -/
structure Sha256State where
  h0 : Nat
  h1 : Nat
  h2 : Nat
  h3 : Nat
  h4 : Nat
  h5 : Nat
  h6 : Nat
  h7 : Nat

/-- SHA-256 initial hash value (decimal). -/
def sha256Init : Sha256State :=
  ⟨1779033703, 3144134277, 1013904242, 2773480762,
   1359893119, 2600822924, 528734635, 1541459225⟩

/-- Message-schedule extension step: `w[i] = σ1 w[i-2] + w[i-7] + σ0 w[i-15] + w[i-16]`. -/
def scheduleWord (w : Array Nat) (i : Nat) : Nat :=
  let w15 := w.getD (i - 15) 0
  let w2 := w.getD (i - 2) 0
  let s0 := (rotr32 7 w15) ^^^ (rotr32 18 w15) ^^^ (w15 / 2 ^ 3)
  let s1 := (rotr32 17 w2) ^^^ (rotr32 19 w2) ^^^ (w2 / 2 ^ 10)
  wrap32 (w.getD (i - 16) 0 + s0 + w.getD (i - 7) 0 + s1)

/-- Extend sixteen schedule words to sixty-four. -/
def extendSchedule (w : Array Nat) : Array Nat :=
  (List.range 48).foldl (fun acc i => acc.push (scheduleWord acc (16 + i))) w

/-- One SHA-256 compression round. -/
def sha256Round (k wi : Nat) (s : Sha256State) : Sha256State :=
  let S1 := (rotr32 6 s.h4) ^^^ (rotr32 11 s.h4) ^^^ (rotr32 25 s.h4)
  let ch := (s.h4 &&& s.h5) ^^^ (not32 s.h4 &&& s.h6)
  let temp1 := wrap32 (s.h7 + S1 + ch + k + wi)
  let S0 := (rotr32 2 s.h0) ^^^ (rotr32 13 s.h0) ^^^ (rotr32 22 s.h0)
  let maj := (s.h0 &&& s.h1) ^^^ (s.h0 &&& s.h2) ^^^ (s.h1 &&& s.h2)
  let temp2 := wrap32 (S0 + maj)
  ⟨wrap32 (temp1 + temp2), s.h0, s.h1, s.h2,
   wrap32 (s.h3 + temp1), s.h4, s.h5, s.h6⟩

/-- Compress one 64-byte chunk into the running state. -/
def sha256Compress (st : Sha256State) (chunk : List Nat) : Sha256State :=
  let w := extendSchedule (chunkWords chunk.length chunk).toArray
  let f := (List.range 64).foldl
    (fun s i => sha256Round (sha256K.getD i 0) (w.getD i 0) s) st
  ⟨wrap32 (st.h0 + f.h0), wrap32 (st.h1 + f.h1), wrap32 (st.h2 + f.h2),
   wrap32 (st.h3 + f.h3), wrap32 (st.h4 + f.h4), wrap32 (st.h5 + f.h5),
   wrap32 (st.h6 + f.h6), wrap32 (st.h7 + f.h7)⟩

/-- SHA-256 digest (32 bytes) of a byte list. -/
def sha256 (msg : List Nat) : List Nat :=
  let padded := sha256Pad msg
  let final := (chunks64 padded.length padded).foldl sha256Compress sha256Init
  be32 final.h0 ++ be32 final.h1 ++ be32 final.h2 ++ be32 final.h3 ++
  be32 final.h4 ++ be32 final.h5 ++ be32 final.h6 ++ be32 final.h7

/-- `hashlib.sha256(s.encode()).hexdigest()` for a string `s`. -/
def sha256hexStr (s : String) : String :=
  hexOfBytes (sha256 (utf8Bytes s))

/-! ## URL-safe base64 without padding

`base64.urlsafe_b64encode(x).rstrip(b"=")`, as used by `auth.py` for public
keys and signatures.  A decoder is also defined in order to prove the encoding
injective on byte strings. -/

/-- The URL-safe base64 alphabet. -/
def b64Alphabet : List Char :=
  "ABCDEFGHIJKLMNOPQRSTUVWXYZabcdefghijklmnopqrstuvwxyz0123456789-_".data

/-- Character for a sextet value. -/
def b64Char (n : Nat) : Char := b64Alphabet.getD n 'A'

/-- Sextet value of an alphabet character. -/
def b64Val (c : Char) : Nat := b64Alphabet.findIdx (· == c)

/-- URL-safe unpadded base64 encoding of a byte list, as a character list. -/
def b64urlNoPad : List Nat → List Char
  | [] => []
  | [b1] => [b64Char (b1 / 4), b64Char (b1 % 4 * 16)]
  | [b1, b2] =>
    [b64Char (b1 / 4), b64Char (b1 % 4 * 16 + b2 / 16), b64Char (b2 % 16 * 4)]
  | b1 :: b2 :: b3 :: rest =>
    b64Char (b1 / 4) :: b64Char (b1 % 4 * 16 + b2 / 16) ::
    b64Char (b2 % 16 * 4 + b3 / 64) :: b64Char (b3 % 64) :: b64urlNoPad rest

/-- Inverse of `b64urlNoPad` on its image. -/
def b64urlDecode : List Char → List Nat
  | [] => []
  | [_] => []
  | [c1, c2] => [b64Val c1 * 4 + b64Val c2 / 16]
  | [c1, c2, c3] =>
    [b64Val c1 * 4 + b64Val c2 / 16, b64Val c2 % 16 * 16 + b64Val c3 / 4]
  | c1 :: c2 :: c3 :: c4 :: rest =>
    (b64Val c1 * 4 + b64Val c2 / 16) :: (b64Val c2 % 16 * 16 + b64Val c3 / 4) ::
    (b64Val c3 % 4 * 64 + b64Val c4) :: b64urlDecode rest

/-! ## Canonical JSON (`json.dumps(..., separators=(",", ":"), sort_keys=True)`) -/

/-- JSON values as passed to `json.dumps`.  Numbers are modelled as integers
(the SDK's own payloads that reach the signing path carry strings, integers,
booleans, lists and objects). -/
inductive Json where
  | null
  | bool (b : Bool)
  | num (n : Int)
  | str (s : String)
  | arr (elems : List Json)
  | obj (fields : List (String × Json))

/-- Four lower-case hex digits (the `\uXXXX` escape payload). -/
def hex4 (n : Nat) : List Char :=
  [hexChar (n / 4096 % 16), hexChar (n / 256 % 16), hexChar (n / 16 % 16),
   hexChar (n % 16)]

/-- `json.dumps` escaping of one character (`ensure_ascii=True` default). -/
def jsonEscapeChar (c : Char) : List Char :=
  if c = '"' then ['\\', '"']
  else if c = '\\' then ['\\', '\\']
  else if c = '\n' then ['\\', 'n']
  else if c = '\r' then ['\\', 'r']
  else if c = '\t' then ['\\', 't']
  else if c.toNat = 8 then ['\\', 'b']
  else if c.toNat = 12 then ['\\', 'f']
  else if c.toNat < 32 then '\\' :: 'u' :: hex4 c.toNat
  else if c.toNat ≤ 126 then [c]
  else if c.toNat < 65536 then '\\' :: 'u' :: hex4 c.toNat
  else
    '\\' :: 'u' :: hex4 (55296 + (c.toNat - 65536) / 1024) ++
    '\\' :: 'u' :: hex4 (56320 + (c.toNat - 65536) % 1024)

/-- A JSON string literal as serialized by `json.dumps`. -/
def dumpJsonStr (s : String) : String :=
  String.mk ('"' :: (s.data.flatMap jsonEscapeChar) ++ ['"'])

/-- Insert a key/serialized-value pair into an already key-sorted list. -/
def insertPair (kv : String × String) : List (String × String) → List (String × String)
  | [] => [kv]
  | x :: xs => if kv.1 < x.1 then kv :: x :: xs else x :: insertPair kv xs

/-- Sort key/serialized-value pairs by key, as `sort_keys=True` does (object
keys are unique, so value comparison never happens). -/
def sortPairs (fs : List (String × String)) : List (String × String) :=
  fs.foldr insertPair []

/-- Interleave commas (the `,` item separator with no whitespace). -/
def commaJoin (parts : List String) : String :=
  String.intercalate "," parts

mutual

/-- `json.dumps(v, separators=(",", ":"), sort_keys=True)`.  Field values are
serialized first and the key/string pairs then sorted by key, which produces
the identical output to sorting first (serialization is per-field). -/
def dumps : Json → String
  | .null => "null"
  | .bool true => "true"
  | .bool false => "false"
  | .num n => toString n
  | .str s => dumpJsonStr s
  | .arr xs => "[" ++ commaJoin (dumpsList xs) ++ "]"
  | .obj fs =>
    "\x7b" ++
    commaJoin ((sortPairs (dumpsFields fs)).map
      (fun kv => dumpJsonStr kv.1 ++ ":" ++ kv.2)) ++
    "\x7d"

/-- Serialize each array element. -/
def dumpsList : List Json → List String
  | [] => []
  | x :: xs => dumps x :: dumpsList xs

/-- Serialize each object field's value, keeping its key. -/
def dumpsFields : List (String × Json) → List (String × String)
  | [] => []
  | (k, v) :: fs => (k, dumps v) :: dumpsFields fs

end

/-! ## `auth.py`: the Ed25519 signer

The request body is a Python `dict | None`; an `Option (List (String × Json))`
here.  The Ed25519 primitive itself lives in PyNaCl, outside this repository,
so it enters the embedding as an explicit function parameter `edSign` from
message bytes to signature bytes (for a fixed private key); the current Unix
time is likewise a parameter `now`. -/

/-- Python truthiness of the `body` argument (`None` and `{}` are falsy). -/
def bodyTruthy : Option (List (String × Json)) → Bool
  | none => false
  | some fs => !fs.isEmpty

/-- The serialized body whose digest enters the signing message:
`json.dumps(body, separators=(",", ":"), sort_keys=True) if body else ""`. -/
def bodyStr (body : Option (List (String × Json))) : String :=
  if bodyTruthy body then dumps (.obj (body.getD [])) else ""

/-- The local `message` of `sign_request`:
`f"{method}:{path}:{timestamp}:{body_hash}"` with
`body_hash = hashlib.sha256(body_str.encode()).hexdigest()`. -/
def signingMessage (method path : String)
    (body : Option (List (String × Json))) (now : Nat) : String :=
  method ++ ":" ++ path ++ ":" ++ toString now ++ ":" ++
    sha256hexStr (bodyStr body)

/-- `Ed25519Signer.sign_request(method, path, body)` at Unix time `now`,
with signing primitive `edSign` (the `self._key.sign(...)` call, whose
`.signature` bytes are base64url-encoded and stripped of padding). -/
def sign_request (edSign : List Nat → List Nat) (agent_id : String)
    (method path : String) (body : Option (List (String × Json))) (now : Nat) :
    String :=
  let timestamp := toString now
  let signature :=
    String.mk (b64urlNoPad (edSign (utf8Bytes (signingMessage method path body now))))
  "MoltBridge-Ed25519 " ++ agent_id ++ ":" ++ timestamp ++ ":" ++ signature

/-- Value of one hex digit (`bytes.fromhex` accepts both cases). -/
def hexVal (c : Char) : Option Nat :=
  if '0' ≤ c ∧ c ≤ '9' then some (c.toNat - 48)
  else if 'a' ≤ c ∧ c ≤ 'f' then some (c.toNat - 87)
  else if 'A' ≤ c ∧ c ≤ 'F' then some (c.toNat - 55)
  else none

/-- Python `bytes.fromhex`: pairs of hex digits, ASCII spaces allowed between
bytes, `ValueError` otherwise (modelled as `none`). -/
def bytesFromHex : List Char → Option (List Nat)
  | [] => some []
  | ' ' :: rest => bytesFromHex rest
  | c1 :: c2 :: rest => do
    let hi ← hexVal c1
    let lo ← hexVal c2
    let bs ← bytesFromHex rest
    pure ((hi * 16 + lo) :: bs)
  | [_] => none

/-- How `Ed25519Signer.from_seed` can fail.  Both cases are plain Python
`ValueError`s raised by the underlying libraries (`bytes.fromhex`, and
PyNaCl's `SigningKey`, whose contract rejects any seed that is not exactly
32 bytes); neither is an SDK-defined exception type. -/
inductive SeedFailure where
  | invalidHex
  | wrongSeedSize
deriving DecidableEq

/-- A constructed signer: the validated seed bytes and the agent identity. -/
structure SignerSeed where
  seedBytes : List Nat
  agentId : String
deriving DecidableEq

/-- An exception escaping an SDK entry point: either one of the SDK's own
typed `MoltBridgeError`s (see `MBError` below) or a foreign exception from an
underlying library. -/
inductive SeedResult where
  | ok (s : SignerSeed)
  | libError (msg : String)
  | valueError (f : SeedFailure)
deriving DecidableEq

/-- `Ed25519Signer.from_seed(seed_hex, agent_id)`: decode the hex seed
(`ValueError` on malformed hex), then construct `SigningKey(seed_bytes)`
(PyNaCl raises `ValueError` unless the seed is exactly 32 bytes).  No
SDK-typed exception is involved on any path. -/
def from_seed (seed_hex agent_id : String) : SeedResult :=
  match bytesFromHex seed_hex.data with
  | none => .valueError .invalidHex
  | some bs =>
    if bs.length = 32 then .ok ⟨bs, agent_id⟩ else .valueError .wrongSeedSize

/-- Whether a `from_seed` outcome is a failure carried by an SDK-typed error
(the claim's `InvalidKeyMaterial`); the code has no such path. -/
def seedFailsTyped : SeedResult → Bool
  | .libError _ => true
  | _ => false

/-! ## `errors.py`: the typed error taxonomy -/

/-- The exception classes of `errors.py`.  `generic` is the base
`MoltBridgeError`; the others are its subclasses.  There is no
`InvalidKeyMaterial` class. -/
inductive ErrKind where
  | generic
  | authentication
  | validation
  | notFound
  | conflict
  | rateLimit
  | serviceUnavailable
deriving DecidableEq

/-- A raised `MoltBridgeError`: class, `message`, `status_code`, `code`.
`message` and `code` hold whatever JSON value the server supplied. -/
structure MBError where
  kind : ErrKind
  message : Json
  statusCode : Nat
  code : Option Json

/-- The fixed `error_map` of `MoltBridgeError.from_response`. -/
def errorMap (status : Nat) : ErrKind :=
  if status = 401 then .authentication
  else if status = 403 then .authentication
  else if status = 400 then .validation
  else if status = 404 then .notFound
  else if status = 409 then .conflict
  else if status = 429 then .rateLimit
  else if status = 503 then .serviceUnavailable
  else .generic

/-- First-match association lookup (Python dict keys are unique). -/
def jLookup : List (String × Json) → String → Option Json
  | [], _ => none
  | (k, v) :: rest, key => if k = key then some v else jLookup rest key

/-- `MoltBridgeError.from_response(status_code, body)`.  `none` models the
uncaught `AttributeError` Python raises when `body` or its `error` entry is
not a dict (`.get` on a non-dict). -/
def from_response (status : Nat) (body : Json) : Option MBError :=
  match body with
  | .obj fields =>
    match (jLookup fields "error").getD (.obj []) with
    | .obj efields =>
      some { kind := errorMap status
           , message := (jLookup efields "message").getD (.str "Unknown error")
           , statusCode := status
           , code := some ((jLookup efields "code").getD (.str "UNKNOWN")) }
    | _ => none
  | _ => none

/-! ## `client.py` transport: `MoltBridge._request`

The network is modelled as a transcript of per-attempt outcomes: each HTTP
attempt either fails at the connection level (`httpx.ConnectError` /
`httpx.ReadTimeout`, with the exception's text) or yields a received response
with a status code and a body that either parses as JSON or is raw text.
`requestNet` consumes the transcript exactly as the `for attempt in
range(retries)` loop does and also returns the unconsumed transcript, so that
"no further request was made" is visible in theorems.  `none` models an
uncaught Python-level crash (e.g. `.json()` on an unparseable success body),
and a transcript too short for the attempts actually made. -/

/-- A received HTTP response body. -/
inductive RespBody where
  | json (j : Json)
  | raw (text : String)

/-- One attempt's outcome on the wire. -/
inductive AttemptOutcome where
  | netFail (excText : String)
  | resp (status : Nat) (body : RespBody)

/-- The error body handed to `from_response`: the parsed JSON, or the
synthetic fallback when the body is not parseable. -/
def errorBodyOf : RespBody → Json
  | .json j => j
  | .raw t => .obj [("error", .obj [("message", .str t), ("code", .str "UNKNOWN")])]

/-- The `MoltBridgeError` raised after exhausting all retries. -/
def connectionFailedError (retries : Nat) (excText : String) : MBError :=
  { kind := .generic
  , message := .str ("Connection failed after " ++ toString retries ++
      " attempts: " ++ excText)
  , statusCode := 0
  , code := some (.str "CONNECTION_ERROR") }

/-- The `MoltBridgeError` raised when `auth=True` but no signer is configured. -/
def noAuthError : MBError :=
  { kind := .generic
  , message := .str ("Authentication required but no agent_id/signing_key configured. " ++
      "Set MOLTBRIDGE_AGENT_ID and MOLTBRIDGE_SIGNING_KEY environment variables.")
  , statusCode := 0
  , code := some (.str "NO_AUTH") }

/-- The `raise` after the loop (reachable only with `retries=0`). -/
def retryExhaustionError : MBError :=
  { kind := .generic, message := .str "Unexpected retry exhaustion"
  , statusCode := 0, code := none }

/-- Handling of a received response inside the loop: status ≥ 400 raises the
error built by `from_response` (or crashes when that crashes); otherwise the
parsed JSON payload is returned (`.json()` on a raw body crashes). -/
def handleResp (status : Nat) (body : RespBody) (rest : List AttemptOutcome) :
    Option (Except MBError Json × List AttemptOutcome) :=
  if 400 ≤ status then
    match from_response status (errorBodyOf body) with
    | some err => some (.error err, rest)
    | none => none
  else
    match body with
    | .json j => some (.ok j, rest)
    | .raw _ => none

/-- The retry loop of `_request`, from attempt index `attempt` on, consuming
the transcript.  Returns the result together with the unconsumed transcript
(`none` models an uncaught crash or a transcript shorter than the attempts
made).  The `attempt < retries` test is the loop's `for attempt in
range(retries)` bound; when it fails the post-loop `raise` fires without
touching the network. -/
def requestNet (retries : Nat) :
    Nat → List AttemptOutcome → Option (Except MBError Json × List AttemptOutcome)
  | attempt, [] =>
    if attempt < retries then none
    else some (.error retryExhaustionError, [])
  | attempt, .netFail e :: rest =>
    if attempt < retries then
      if attempt < retries - 1 then requestNet retries (attempt + 1) rest
      else some (.error (connectionFailedError retries e), rest)
    else some (.error retryExhaustionError, .netFail e :: rest)
  | attempt, .resp status body :: rest =>
    if attempt < retries then handleResp status body rest
    else some (.error retryExhaustionError, .resp status body :: rest)

/-- The signer slot of a client: the agent id and the derived public key
(`public_key_b64`, computed by PyNaCl from the private key and carried here
as data). -/
structure SignerInfo where
  agentId : String
  publicKeyB64 : String
deriving DecidableEq

/-- Client session state relevant to the claims: the optional signer and the
cached verification token (`self._verification_token`, which may hold any
JSON value the server returned for `"token"`). -/
structure ClientState where
  signer : Option SignerInfo
  verificationToken : Option Json

/-- `MoltBridge._request(method, path, body, auth, retries)`.  The local
auth precondition is checked before any attempt; `method`, `path` and `body`
only shape the outgoing request, which the transcript abstracts. -/
def clientRequest (st : ClientState) (method path : String)
    (body : Option (List (String × Json))) (auth : Bool) (retries : Nat)
    (outcomes : List AttemptOutcome) :
    Option (Except MBError Json × List AttemptOutcome) :=
  if auth && st.signer.isNone then some (.error noAuthError, outcomes)
  else requestNet retries 0 outcomes

/-! ## The proof-of-work challenge solvers -/

/-- The `MoltBridgeError` raised when solving exceeds the iteration ceiling. -/
def challengeTimeoutError : MBError :=
  { kind := .generic
  , message := .str "Challenge solving exceeded 10M iterations"
  , statusCode := 0
  , code := some (.str "CHALLENGE_TIMEOUT") }

/-- Python `str.startswith`. -/
def pyStartsWith (s pre : String) : Bool :=
  pre.data.isPrefixOf s.data

/-- Whether counter value `c` solves the challenge: the hex digest of
`nonce + str(c)` starts with the target. -/
def challengeMatches (nonce target : String) (c : Nat) : Bool :=
  pyStartsWith (sha256hexStr (nonce ++ toString c)) target

/-- The `while True` loop of `MoltBridge._solve_challenge`, fuel-driven.
Starting from counter 0 with fuel 10000001 the fuel never reaches 0: the
guard `counter + 1 > 10_000_000` fires first. -/
def solveGo (nonce target : String) : Nat → Nat → Except MBError String
  | _, 0 => .error challengeTimeoutError
  | counter, fuel + 1 =>
    if challengeMatches nonce target counter then .ok (toString counter)
    else if counter + 1 > 10000000 then .error challengeTimeoutError
    else solveGo nonce target (counter + 1) fuel

/-- `MoltBridge._solve_challenge` (synchronous client): returns the decimal
counter string of the first match, or raises after the iteration ceiling. -/
def solveChallenge (nonce target : String) : Except MBError String :=
  solveGo nonce target 0 10000001

/-- The loop of `AsyncMoltBridge._solve_challenge`: identical search, but the
returned proof is `f"{nonce_prefix}{counter}"` — the whole hashed attempt
string, not just the counter. -/
def solveGoAsync (nonce target : String) : Nat → Nat → Except MBError String
  | _, 0 => .error challengeTimeoutError
  | counter, fuel + 1 =>
    let attempt := nonce ++ toString counter
    if pyStartsWith (sha256hexStr attempt) target then .ok attempt
    else if counter + 1 > 10000000 then .error challengeTimeoutError
    else solveGoAsync nonce target (counter + 1) fuel

/-- `AsyncMoltBridge._solve_challenge`. -/
def solveChallengeAsync (nonce target : String) : Except MBError String :=
  solveGoAsync nonce target 0 10000001

/-! ## `client.py`: `verify()` and `register()` -/

/-- Python truthiness of a JSON value. -/
def jTruthy : Json → Bool
  | .null => false
  | .bool b => b
  | .num n => n != 0
  | .str s => !s.isEmpty
  | .arr xs => !xs.isEmpty
  | .obj fs => !fs.isEmpty

/-- Python truthiness of `self._verification_token` (an optional value). -/
def optTruthy : Option Json → Bool
  | none => false
  | some j => jTruthy j

/-- The `VerificationResult` fields `verify()` populates.  `verified` holds
the value Python stores there: `True` in the already-verified branch, and
`result.get("verified", False)` (the raw server value) in the submit branch. -/
structure VerificationResultM where
  verified : Json
  token : Option Json

/-- `MoltBridge.verify()`: fetch the challenge, solve, submit, cache the
token.  In the server-says-already-verified branch the method returns early
with the token but does **not** write `self._verification_token`.  `none`
models an uncaught Python crash (missing/ill-typed challenge fields, non-dict
response). -/
def verifyFlow (st : ClientState) (retries : Nat)
    (outcomes : List AttemptOutcome) :
    Option (ClientState × Except MBError VerificationResultM × List AttemptOutcome) :=
  match clientRequest st "POST" "/verify" (some []) false retries outcomes with
  | none => none
  | some (.error e, rest) => some (st, .error e, rest)
  | some (.ok challenge_data, rest) =>
    match challenge_data with
    | .obj cfields =>
      if jTruthy ((jLookup cfields "verified").getD .null) then
        some (st, .ok ⟨.bool true, jLookup cfields "token"⟩, rest)
      else
        match jLookup cfields "challenge_id", jLookup cfields "difficulty",
              jLookup cfields "nonce" with
        | some cid, some (.num difficulty), some (.str nonce) =>
          let target := String.mk (List.replicate difficulty.toNat '0')
          match solveChallenge nonce target with
          | .error e => some (st, .error e, rest)
          | .ok proof =>
            match clientRequest st "POST" "/verify"
                (some [("challenge_id", cid), ("proof_of_work", .str proof)])
                false retries rest with
            | none => none
            | some (.error e, rest2) => some (st, .error e, rest2)
            | some (.ok result, rest2) =>
              match result with
              | .obj rfields =>
                let newSt := { st with verificationToken := jLookup rfields "token" }
                some (newSt,
                      .ok ⟨(jLookup rfields "verified").getD (.bool false),
                           newSt.verificationToken⟩,
                      rest2)
              | _ => none
        | _, _, _ => none
    | _ => none

/-- The `MoltBridgeError` raised by `register()` when no signer is configured. -/
def registerNoAgentError : MBError :=
  { kind := .generic, message := .str "Cannot register: no agent_id configured"
  , statusCode := 0, code := none }

/-- The `MoltBridgeError` raised by `register()` without a verification token. -/
def registerNoTokenError : MBError :=
  { kind := .generic
  , message := .str "Cannot register: call verify() first to complete proof-of-AI"
  , statusCode := 0, code := none }

/-- The registration request body built by `register()` (insertion order as
in the source; `verification_token` embeds the cached token). -/
def registerBody (si : SignerInfo) (token : Json) (name : Option String)
    (platform : String) (capabilities clusters : List String)
    (a2a : Option String) (omniscience article22 : Bool) :
    List (String × Json) :=
  let base :=
    [("agent_id", Json.str si.agentId),
     ("name", Json.str (match name with
       | some n => if n.isEmpty then si.agentId else n
       | none => si.agentId)),
     ("platform", Json.str platform),
     ("pubkey", Json.str si.publicKeyB64),
     ("capabilities", Json.arr (capabilities.map .str)),
     ("clusters", Json.arr (clusters.map .str)),
     ("verification_token", token),
     ("omniscience_acknowledged", Json.bool omniscience),
     ("article22_consent", Json.bool article22)]
  match a2a with
  | some url => if url.isEmpty then base else base ++ [("a2a_endpoint", .str url)]
  | none => base

/-- `MoltBridge.register(...)`: local preconditions (signer, then cached
verification token) are checked before any network call; on success the
body embedding the cached token is POSTed to `/register` with `auth=False`. -/
def register (st : ClientState) (name : Option String) (platform : String)
    (capabilities clusters : List String) (a2a : Option String)
    (omniscience article22 : Bool) (retries : Nat)
    (outcomes : List AttemptOutcome) :
    Option (ClientState × Except MBError Json × List AttemptOutcome) :=
  match st.signer with
  | none => some (st, .error registerNoAgentError, outcomes)
  | some si =>
    if !optTruthy st.verificationToken then
      some (st, .error registerNoTokenError, outcomes)
    else
      let body := registerBody si (st.verificationToken.getD .null) name
        platform capabilities clusters a2a omniscience article22
      match clientRequest st "POST" "/register" (some body) false retries outcomes with
      | none => none
      | some (r, rest) => some (st, r, rest)

/-! ## Supporting lemmas -/

/-- Decoder for `utf8Bytes`, recovering the scalar values; used to prove the
encoding injective. -/
def utf8DecodeNats (l : List Nat) : List Nat :=
  match l with
  | [] => []
  | b :: rest =>
    if b < 128 then b :: utf8DecodeNats rest
    else if b < 224 then
      ((b - 192) * 64 + (rest.getD 0 0 - 128)) :: utf8DecodeNats (rest.drop 1)
    else if b < 240 then
      ((b - 224) * 4096 + (rest.getD 0 0 - 128) * 64 + (rest.getD 1 0 - 128)) ::
        utf8DecodeNats (rest.drop 2)
    else
      ((b - 240) * 262144 + (rest.getD 0 0 - 128) * 4096 +
       (rest.getD 1 0 - 128) * 64 + (rest.getD 2 0 - 128)) ::
        utf8DecodeNats (rest.drop 3)
termination_by l.length
decreasing_by
  · simp
  · simp [List.length_drop]; omega
  · simp [List.length_drop]; omega
  · simp [List.length_drop]; omega

theorem char_toNat_lt (c : Char) : c.toNat < 1114112 := by
  rcases c.valid with h | ⟨h1, h2⟩
  · unfold Char.toNat; omega
  · unfold Char.toNat; omega

theorem char_toNat_injective : Function.Injective Char.toNat := by
  intro a b h
  exact Char.ext (UInt32.ext h)

theorem utf8_decode_char (c : Char) (tail : List Nat) :
    utf8DecodeNats (charUtf8 c ++ tail) = c.toNat :: utf8DecodeNats tail := by
  have hv := char_toNat_lt c
  unfold charUtf8 natUtf8
  split_ifs with h1 h2 h3
  · rw [List.cons_append, List.nil_append]
    rw [utf8DecodeNats]
    rw [if_pos h1]
  · rw [List.cons_append, List.cons_append, List.nil_append]
    rw [utf8DecodeNats]
    rw [if_neg (by omega), if_pos (by omega)]
    simp only [List.getD_cons_zero, List.drop_succ_cons, List.drop_zero]
    congr 1
    omega
  · rw [List.cons_append, List.cons_append, List.cons_append, List.nil_append]
    rw [utf8DecodeNats]
    rw [if_neg (by omega), if_neg (by omega), if_pos (by omega)]
    simp only [List.getD_cons_zero, List.getD_cons_succ, List.drop_succ_cons,
      List.drop_zero]
    congr 1
    omega
  · rw [List.cons_append, List.cons_append, List.cons_append, List.cons_append,
      List.nil_append]
    rw [utf8DecodeNats]
    rw [if_neg (by omega), if_neg (by omega), if_neg (by omega)]
    simp only [List.getD_cons_zero, List.getD_cons_succ, List.drop_succ_cons,
      List.drop_zero]
    congr 1
    omega

theorem utf8_decode_encode (l : List Char) :
    utf8DecodeNats (l.flatMap charUtf8) = l.map Char.toNat := by
  induction l with
  | nil => rw [List.flatMap_nil, List.map_nil, utf8DecodeNats]
  | cons c cs ih => rw [List.flatMap_cons, utf8_decode_char, ih, List.map_cons]

theorem utf8Bytes_inj {s1 s2 : String} (h : utf8Bytes s1 = utf8Bytes s2) :
    s1 = s2 := by
  apply String.ext
  apply List.map_injective_iff.mpr char_toNat_injective
  rw [← utf8_decode_encode, ← utf8_decode_encode]
  unfold utf8Bytes at h
  rw [h]

theorem charUtf8_lt (c : Char) : ∀ b ∈ charUtf8 c, b < 256 := by
  have hv := char_toNat_lt c
  intro b hb
  unfold charUtf8 natUtf8 at hb
  split_ifs at hb with h1 h2 h3 <;>
    simp only [List.mem_cons, List.not_mem_nil, or_false] at hb
  · omega
  · rcases hb with rfl | rfl <;> omega
  · rcases hb with rfl | rfl | rfl <;> omega
  · rcases hb with rfl | rfl | rfl | rfl <;> omega

theorem utf8Bytes_lt (s : String) : ∀ b ∈ utf8Bytes s, b < 256 := by
  intro b hb
  rw [utf8Bytes, List.mem_flatMap] at hb
  rcases hb with ⟨c, _, hc⟩
  exact charUtf8_lt c b hc

theorem b64_val_char : ∀ n, n < 64 → b64Val (b64Char n) = n := by decide

theorem b64_decode_encode :
    ∀ bs : List Nat, (∀ b ∈ bs, b < 256) → b64urlDecode (b64urlNoPad bs) = bs
  | [], _ => rfl
  | [b1], h => by
    have hb1 : b1 < 256 := h b1 (by simp)
    simp only [b64urlNoPad, b64urlDecode,
      b64_val_char (b1 / 4) (by omega), b64_val_char (b1 % 4 * 16) (by omega)]
    congr 1
    omega
  | [b1, b2], h => by
    have hb1 : b1 < 256 := h b1 (by simp)
    have hb2 : b2 < 256 := h b2 (by simp)
    simp only [b64urlNoPad, b64urlDecode,
      b64_val_char (b1 / 4) (by omega),
      b64_val_char (b1 % 4 * 16 + b2 / 16) (by omega),
      b64_val_char (b2 % 16 * 4) (by omega)]
    congr 1
    · omega
    congr 1
    omega
  | b1 :: b2 :: b3 :: rest, h => by
    have hb1 : b1 < 256 := h b1 (by simp)
    have hb2 : b2 < 256 := h b2 (by simp)
    have hb3 : b3 < 256 := h b3 (by simp)
    have ih := b64_decode_encode rest (fun b hb => h b (by simp [hb]))
    simp only [b64urlNoPad, b64urlDecode,
      b64_val_char (b1 / 4) (by omega),
      b64_val_char (b1 % 4 * 16 + b2 / 16) (by omega),
      b64_val_char (b2 % 16 * 4 + b3 / 64) (by omega),
      b64_val_char (b3 % 64) (by omega), ih]
    congr 1
    · omega
    congr 1
    · omega
    congr 1
    omega

theorem hexChar_ne_g (n : Nat) : hexChar n ≠ 'g' := by
  by_cases h : n < 16
  · have hall : ∀ m, m < 16 → hexChar m ≠ 'g' := by decide
    exact hall n h
  · unfold hexChar
    rw [List.getD_eq_default _ _ (by
      rw [show ("0123456789abcdef".data.length = 16) from rfl]; omega)]
    decide

theorem hexOfBytes_be32_not_g (a : Nat) (rest : List Nat) :
    pyStartsWith (hexOfBytes (be32 a ++ rest)) "g" = false := by
  unfold pyStartsWith hexOfBytes be32
  rw [List.cons_append, List.map_cons, List.flatten_cons]
  rw [show (hexByte (a / 2 ^ 24 % 256) =
    [hexChar (a / 2 ^ 24 % 256 / 16), hexChar (a / 2 ^ 24 % 256 % 16)]) from rfl]
  rw [List.cons_append]
  rw [show (("g".data : List Char) = ['g']) from rfl]
  dsimp only
  rw [List.isPrefixOf]
  rw [beq_eq_false_iff_ne.mpr (Ne.symm (hexChar_ne_g (a / 2 ^ 24 % 256 / 16)))]
  rw [Bool.false_and]

theorem sha256hexStr_not_g (s : String) :
    pyStartsWith (sha256hexStr s) "g" = false := by
  unfold sha256hexStr sha256
  exact hexOfBytes_be32_not_g _ _

/-- The loop returns the least matching counter when one exists within the
counters the loop visits (`0` through `10000000`). -/
theorem solveGo_found (nonce target : String) :
    ∀ (fuel start c0 : Nat), start + fuel = 10000001 → start ≤ c0 →
    c0 ≤ 10000000 → challengeMatches nonce target c0 = true →
    (∀ c, start ≤ c → c < c0 → challengeMatches nonce target c = false) →
    solveGo nonce target start fuel = .ok (toString c0)
  | 0, start, c0, hsum, h1, h2, _, _ => by omega
  | fuel + 1, start, c0, hsum, h1, h2, hm, hleast => by
    rw [solveGo]
    by_cases hs : challengeMatches nonce target start
    · have : start = c0 := by
        by_contra hne
        have hlt : start < c0 := by omega
        rw [hleast start le_rfl hlt] at hs
        exact Bool.false_ne_true hs
      rw [if_pos hs, this]
    · rw [if_neg (by simp [hs])]
      have hlt : start < c0 := by
        rcases Nat.lt_or_ge start c0 with h | h
        · exact h
        · have : start = c0 := by omega
          rw [this] at hs; exact absurd hm hs
      rw [if_neg (by omega)]
      exact solveGo_found nonce target fuel (start + 1) c0 (by omega) (by omega)
        h2 hm (fun c hc1 hc2 => hleast c (by omega) hc2)

/-- The loop raises the timeout error when no counter it visits matches. -/
theorem solveGo_exhaust (nonce target : String) :
    ∀ (fuel start : Nat), start + fuel = 10000001 → start ≤ 10000000 →
    (∀ c, start ≤ c → c ≤ 10000000 → challengeMatches nonce target c = false) →
    solveGo nonce target start fuel = .error challengeTimeoutError
  | 0, start, hsum, hle, _ => by omega
  | fuel + 1, start, hsum, hle, hnone => by
    rw [solveGo]
    rw [if_neg (by simp [hnone start le_rfl hle])]
    by_cases hend : start + 1 > 10000000
    · rw [if_pos hend]
    · rw [if_neg hend]
      exact solveGo_exhaust nonce target fuel (start + 1) (by omega) (by omega)
        (fun c hc1 hc2 => hnone c (by omega) hc2)

/-! ## Claims -/

/-- C2: for every challenge `(nonce, target_prefix)` the solver iterates an
integer counter from 0, hashes the UTF-8 bytes of the nonce concatenated
with the decimal counter with SHA-256 (hex), and returns the first counter
value (as its attempt string) whose digest starts with the target prefix;
when no counter within the iteration ceiling (the constant 10,000,000:
counters 0 through 10,000,000 are tried) matches, it fails with the
`ChallengeTimeout` error instead of looping forever. -/
theorem claim_C2_solver (nonce target : String) :
    (∀ c0, c0 ≤ 10000000 →
      challengeMatches nonce target c0 = true →
      (∀ c, c < c0 → challengeMatches nonce target c = false) →
      solveChallenge nonce target = .ok (toString c0))
    ∧ ((∀ c, c ≤ 10000000 → challengeMatches nonce target c = false) →
      solveChallenge nonce target = .error challengeTimeoutError) := by
  constructor
  · intro c0 hle hm hleast
    exact solveGo_found nonce target 10000001 0 c0 (by omega) (by omega) hle hm
      (fun c _ hc => hleast c hc)
  · intro hnone
    exact solveGo_exhaust nonce target 10000001 0 (by omega) (by omega)
      (fun c _ hc => hnone c hc)

/-- Witness for C2: on nonce `"c"` with target `"0"` the least matching
counter is 4 and the solver returns `"4"`; on target `"g"` (which no hex
digest can start with) it raises the timeout error. -/
theorem claim_C2_solver_witness :
    solveChallenge "c" "0" = .ok "4"
    ∧ solveChallenge "c" "g" = .error challengeTimeoutError :=
  ⟨(claim_C2_solver "c" "0").1 4 (by omega) (by decide) (by decide),
   (claim_C2_solver "c" "g").2
     (fun c _ => by rw [challengeMatches]; exact sha256hexStr_not_g _)⟩

/-- C7 (divergence): the blocking and non-blocking solvers are not
equivalent.  On the challenge with nonce `"c"` and target prefix `"0"` the
synchronous solver returns the counter string `"4"` while the asynchronous
solver returns the whole attempt string `"c4"` (nonce concatenated with the
counter), so their proof strings differ. -/
theorem claim_C7_divergence :
    solveChallenge "c" "0" = .ok "4"
    ∧ solveChallengeAsync "c" "0" = .ok "c4"
    ∧ ("4" : String) ≠ "c4" :=
  ⟨by rfl, by rfl, by decide⟩

/-- The source's `error_map` dictionary agrees with the claim's case list. -/
theorem errorMap_cases (status : Nat) :
    errorMap status =
      (if status = 401 ∨ status = 403 then .authentication
       else if status = 400 then .validation
       else if status = 404 then .notFound
       else if status = 409 then .conflict
       else if status = 429 then .rateLimit
       else if status = 503 then .serviceUnavailable
       else .generic) := by
  unfold errorMap
  split_ifs <;> simp_all

/-- C3: every received response with status ≥ 400 is raised as the error kind
fixed by the status map (401/403 authentication, 400 validation, 404 not
found, 409 conflict, 429 rate limit, 503 service unavailable, anything else
the generic error), carrying the response's status code and the
server-supplied message and machine code; the payload is never returned as a
success, and no further network attempt is consumed. -/
theorem claim_C3_status_mapping (retries status : Nat)
    (fields efields : List (String × Json)) (msg code : String)
    (rest : List AttemptOutcome)
    (hr : 0 < retries) (hs : 400 ≤ status)
    (he : jLookup fields "error" = some (.obj efields))
    (hm : jLookup efields "message" = some (.str msg))
    (hc : jLookup efields "code" = some (.str code)) :
    requestNet retries 0 (.resp status (.json (.obj fields)) :: rest)
      = some (.error
          { kind :=
              if status = 401 ∨ status = 403 then .authentication
              else if status = 400 then .validation
              else if status = 404 then .notFound
              else if status = 409 then .conflict
              else if status = 429 then .rateLimit
              else if status = 503 then .serviceUnavailable
              else .generic
          , message := .str msg
          , statusCode := status
          , code := some (.str code) }, rest) := by
  rw [requestNet, if_pos hr]
  unfold handleResp
  dsimp only [errorBodyOf]
  rw [if_pos hs]
  unfold from_response
  dsimp only
  rw [he]
  dsimp only [Option.getD]
  rw [hm, hc]
  dsimp only [Option.getD]
  rw [errorMap_cases]

/-- Witness for C3 at a concrete 404 with a server-supplied error object. -/
theorem claim_C3_status_mapping_witness :
    requestNet 3 0
        [.resp 404 (.json (.obj [("error", .obj
          [("message", .str "Agent not found"), ("code", .str "NOT_FOUND")])]))]
      = some (.error
          { kind := .notFound, message := .str "Agent not found"
          , statusCode := 404, code := some (.str "NOT_FOUND") }, []) := by
  have h := claim_C3_status_mapping 3 404
    [("error", .obj [("message", .str "Agent not found"), ("code", .str "NOT_FOUND")])]
    [("message", .str "Agent not found"), ("code", .str "NOT_FOUND")]
    "Agent not found" "NOT_FOUND" [] (by omega) (by omega) (by rfl) (by rfl) (by rfl)
  simpa using h

/-- C4: the transport retries only connection-level failures, never received
responses: with `max_retries = 3`, connection failures on attempts 1 and 2
followed by a successful response return its payload; connection failures on
all 3 attempts raise the connection-failed error carrying the attempt count;
and the outcome after a received response (any status) is independent of
whatever the network would have done on later attempts. -/
theorem claim_C4_retry_policy (e1 e2 e3 : String) (j : Json) (s s2 : Nat)
    (b : RespBody) (rest rest2 : List AttemptOutcome) (hs : s < 400) :
    (requestNet 3 0 [.netFail e1, .netFail e2, .resp s (.json j)]
      = some (.ok j, []))
    ∧ (requestNet 3 0 [.netFail e1, .netFail e2, .netFail e3]
      = some (.error (connectionFailedError 3 e3), []))
    ∧ ((requestNet 3 0 (.resp s2 b :: rest)).map Prod.fst
      = (requestNet 3 0 (.resp s2 b :: rest2)).map Prod.fst) := by
  refine ⟨?_, ?_, ?_⟩
  · rw [requestNet, if_pos (by omega), if_pos (by omega)]
    rw [requestNet, if_pos (by omega), if_pos (by omega)]
    rw [requestNet, if_pos (by omega)]
    unfold handleResp
    rw [if_neg (by omega)]
  · rw [requestNet, if_pos (by omega), if_pos (by omega)]
    rw [requestNet, if_pos (by omega), if_pos (by omega)]
    rw [requestNet, if_pos (by omega), if_neg (by omega)]
  · rw [requestNet, if_pos (by omega)]
    conv_rhs => rw [requestNet, if_pos (by omega)]
    unfold handleResp
    by_cases h4 : 400 ≤ s2
    · rw [if_pos h4, if_pos h4]
      cases from_response s2 (errorBodyOf b) <;> rfl
    · rw [if_neg h4, if_neg h4]
      cases b <;> rfl

/-- Witness for C4 at concrete transcripts (success payload `null`, a 503
response body, two exception texts). -/
theorem claim_C4_retry_policy_witness :
    (requestNet 3 0 [.netFail "t1", .netFail "t2", .resp 200 (.json .null)]
      = some (.ok .null, []))
    ∧ (requestNet 3 0 [.netFail "t1", .netFail "t2", .netFail "t3"]
      = some (.error (connectionFailedError 3 "t3"), []))
    ∧ ((requestNet 3 0 [.resp 503 (.raw "down"), .netFail "t4"]).map Prod.fst
      = (requestNet 3 0 [.resp 503 (.raw "down")]).map Prod.fst) :=
  claim_C4_retry_policy "t1" "t2" "t3" .null 200 503 (.raw "down")
    [.netFail "t4"] [] (by omega)

/-- C6: local precondition failures are raised before anything is sent over
the wire and leave the client state unchanged: an authenticated request on a
client with no signer raises the NO_AUTH error whatever the network
transcript holds (which is returned unconsumed), and `register()` without a
cached verification token raises its typed precondition error the same way,
returning the state unchanged. -/
theorem claim_C6_local_preconditions (st : ClientState) (method path : String)
    (body : Option (List (String × Json))) (name : Option String)
    (platform : String) (capabilities clusters : List String)
    (a2a : Option String) (omniscience article22 : Bool)
    (retries : Nat) (outcomes : List AttemptOutcome) :
    (st.signer = none →
      clientRequest st method path body true retries outcomes
        = some (.error noAuthError, outcomes))
    ∧ (∀ si, st.signer = some si → optTruthy st.verificationToken = false →
      register st name platform capabilities clusters a2a omniscience
          article22 retries outcomes
        = some (st, .error registerNoTokenError, outcomes)) := by
  constructor
  · intro h
    rw [clientRequest, if_pos (by rw [h]; rfl)]
  · intro si hsi htok
    rw [register, hsi]
    dsimp only
    rw [htok]
    rfl

/-- Witness for C6: a signerless client's authenticated call, and a signed
client without a token calling `register`, on a non-empty transcript. -/
theorem claim_C6_local_preconditions_witness :
    (clientRequest ⟨none, none⟩ "POST" "/attest" none true 3
        [.resp 200 (.json .null)]
      = some (.error noAuthError, [.resp 200 (.json .null)]))
    ∧ (register ⟨some ⟨"agent-1", "PK"⟩, none⟩ none "custom" [] [] none
        true true 3 [.resp 200 (.json .null)]
      = some (⟨some ⟨"agent-1", "PK"⟩, none⟩, .error registerNoTokenError,
              [.resp 200 (.json .null)])) :=
  ⟨(claim_C6_local_preconditions ⟨none, none⟩ "POST" "/attest" none none
      "custom" [] [] none true true 3 [.resp 200 (.json .null)]).1 rfl,
   (claim_C6_local_preconditions ⟨some ⟨"agent-1", "PK"⟩, none⟩ "POST"
      "/attest" none none "custom" [] [] none true true 3
      [.resp 200 (.json .null)]).2 ⟨"agent-1", "PK"⟩ rfl rfl⟩

/-- C10: when an HTTP error body parses as JSON but has no `"error"` object,
or its `"error"` object lacks the `message`/`code` fields, the raised error
defaults to message `"Unknown error"` and code `"UNKNOWN"`; top-level
`message`/`code` fields outside an `"error"` object are ignored. -/
theorem claim_C10_error_defaults (status : Nat)
    (fields : List (String × Json)) :
    (jLookup fields "error" = none →
      from_response status (.obj fields)
        = some { kind := errorMap status, message := .str "Unknown error"
               , statusCode := status, code := some (.str "UNKNOWN") })
    ∧ (∀ efields, jLookup fields "error" = some (.obj efields) →
      jLookup efields "message" = none → jLookup efields "code" = none →
      from_response status (.obj fields)
        = some { kind := errorMap status, message := .str "Unknown error"
               , statusCode := status, code := some (.str "UNKNOWN") }) := by
  constructor
  · intro h
    unfold from_response
    dsimp only
    rw [h]
    rfl
  · intro efields he hm hc
    unfold from_response
    dsimp only
    rw [he]
    dsimp only [Option.getD]
    rw [hm, hc]

/-- Witness for C10: a body carrying only top-level `message`/`code` fields
(no `"error"` object) yields the defaults — the top-level fields are ignored
— and so does a body with an empty `"error"` object. -/
theorem claim_C10_error_defaults_witness :
    (from_response 500 (.obj [("message", .str "top-level"), ("code", .str "TOP")])
      = some { kind := .generic, message := .str "Unknown error"
             , statusCode := 500, code := some (.str "UNKNOWN") })
    ∧ (from_response 500 (.obj [("error", .obj [])])
      = some { kind := .generic, message := .str "Unknown error"
             , statusCode := 500, code := some (.str "UNKNOWN") }) :=
  ⟨(claim_C10_error_defaults 500
      [("message", .str "top-level"), ("code", .str "TOP")]).1 rfl,
   (claim_C10_error_defaults 500 [("error", .obj [])]).2 [] rfl rfl rfl⟩

/-- C5 (divergence): when the server reports the agent already verified on
the first call, `verify()` returns a Verified result carrying the token but
does **not** cache it in `self._verification_token` (the early return skips
the assignment), so a subsequent `register()` fails its local precondition
instead of embedding the token.  Evaluated at the failing input: the `/verify`
response `{"verified": true, "token": "tok-1"}`. -/
theorem claim_C5_divergence :
    verifyFlow ⟨some ⟨"agent-1", "PK"⟩, none⟩ 3
        [.resp 200 (.json (.obj [("verified", .bool true), ("token", .str "tok-1")]))]
      = some (⟨some ⟨"agent-1", "PK"⟩, none⟩,
              .ok ⟨.bool true, some (.str "tok-1")⟩, [])
    ∧ register ⟨some ⟨"agent-1", "PK"⟩, none⟩ none "custom" [] [] none
        true true 3 []
      = some (⟨some ⟨"agent-1", "PK"⟩, none⟩, .error registerNoTokenError, []) :=
  ⟨rfl, rfl⟩

/-- C9 (counterexample): `from_seed` on the one-byte seed `"00"` fails with
the foreign `ValueError` of the underlying Ed25519 library's seed-size check,
not with any SDK-typed error — the taxonomy in `errors.py` has no
`InvalidKeyMaterial` type at all. -/
theorem claim_C9_counterexample :
    from_seed "00" "agent-x" = .valueError .wrongSeedSize
    ∧ seedFailsTyped (from_seed "00" "agent-x") = false :=
  ⟨rfl, rfl⟩

/-- C9 (amended): constructing a signer from malformed hex fails with the
`ValueError` of `bytes.fromhex`, and from a seed that is not exactly 32 bytes
with the `ValueError` of the Ed25519 library's seed-size contract; a valid
32-byte seed succeeds.  No failure path raises an SDK-typed error (there is
no `InvalidKeyMaterial` type in the SDK). -/
theorem claim_C9_seed_validation (seed_hex agent : String) :
    (bytesFromHex seed_hex.data = none →
      from_seed seed_hex agent = .valueError .invalidHex)
    ∧ (∀ bs, bytesFromHex seed_hex.data = some bs → bs.length ≠ 32 →
      from_seed seed_hex agent = .valueError .wrongSeedSize)
    ∧ (∀ bs, bytesFromHex seed_hex.data = some bs → bs.length = 32 →
      from_seed seed_hex agent = .ok ⟨bs, agent⟩)
    ∧ seedFailsTyped (from_seed seed_hex agent) = false := by
  refine ⟨?_, ?_, ?_, ?_⟩
  · intro h
    unfold from_seed
    rw [h]
  · intro bs hbs hlen
    unfold from_seed
    rw [hbs]
    dsimp only
    rw [if_neg hlen]
  · intro bs hbs hlen
    unfold from_seed
    rw [hbs]
    dsimp only
    rw [if_pos hlen]
  · unfold from_seed seedFailsTyped
    cases bytesFromHex seed_hex.data with
    | none => rfl
    | some bs =>
      dsimp only
      by_cases hl : bs.length = 32
      · rw [if_pos hl]
      · rw [if_neg hl]

/-- Witness for C9: the one-byte seed `"00"` hits the wrong-size `ValueError`
path, and the 64-hex-digit seed of 32 `0xaa` bytes succeeds. -/
theorem claim_C9_seed_validation_witness :
    from_seed "00" "agent-w" = .valueError .wrongSeedSize
    ∧ from_seed "aaaaaaaaaaaaaaaaaaaaaaaaaaaaaaaaaaaaaaaaaaaaaaaaaaaaaaaaaaaaaaaa"
        "agent-w" = .ok ⟨List.replicate 32 170, "agent-w"⟩ :=
  ⟨(claim_C9_seed_validation "00" "agent-w").2.1 [0] rfl (by decide),
   (claim_C9_seed_validation
      "aaaaaaaaaaaaaaaaaaaaaaaaaaaaaaaaaaaaaaaaaaaaaaaaaaaaaaaaaaaaaaaa"
      "agent-w").2.2.1 (List.replicate 32 170) (by decide) (by decide)⟩

/-- C1 (counterexample): for the present-but-empty body `{}` the claim
prescribes the digest of its canonical JSON serialization `"{}"`, but
`sign_request` treats the empty dict as falsy and hashes the empty string
instead: at `body = {}` the produced header is not the claim's value and
coincides with the absent-body header.  (The signing primitive is
instantiated with the identity function on bytes; the signing message going
into it already differs.) -/
theorem claim_C1_counterexample :
    sign_request (fun bs => bs) "a" "GET" "/p" (some []) 0
      ≠ "MoltBridge-Ed25519 a:0:" ++
        String.mk (b64urlNoPad (utf8Bytes
          ("GET:/p:0:" ++ sha256hexStr (dumps (.obj [])))))
    ∧ sign_request (fun bs => bs) "a" "GET" "/p" (some []) 0
      = "MoltBridge-Ed25519 a:0:" ++
        String.mk (b64urlNoPad (utf8Bytes ("GET:/p:0:" ++ sha256hexStr ""))) :=
  ⟨by decide, by decide⟩

/-- C1 (amended): for every signing primitive, method, path, body and Unix
time, `sign_request` returns
`"MoltBridge-Ed25519 <agent_id>:<timestamp>:<signature>"` where the timestamp
is the decimal Unix time, the signature is the URL-safe unpadded base64 of
the Ed25519 signature of the UTF-8 bytes of
`"<METHOD>:<path>:<timestamp>:<digest>"`, and the digest is the SHA-256 hex
digest of the canonical JSON serialization (sorted keys, no extraneous
whitespace) of the body when it is present and non-empty, or of the empty
string when the body is absent **or an empty object**. -/
theorem claim_C1_header_format (edSign : List Nat → List Nat)
    (agent method path : String) (body : Option (List (String × Json)))
    (now : Nat) :
    sign_request edSign agent method path body now
      = "MoltBridge-Ed25519 " ++ agent ++ ":" ++ toString now ++ ":" ++
        String.mk (b64urlNoPad (edSign (utf8Bytes
          (method ++ ":" ++ path ++ ":" ++ toString now ++ ":" ++
           sha256hexStr (match body with
             | some fs => if fs.isEmpty then "" else dumps (.obj fs)
             | none => ""))))) := by
  cases body with
  | none => rfl
  | some fs =>
    cases fs with
    | nil => rfl
    | cons f fs => rfl

/-- C8 (counterexample): the absent body and the present-but-empty body have
different canonical serializations (`""`, the empty serialization prescribed
for an absent body, versus `"{}"`), yet `sign_request` produces the identical
authentication header for both (shown with the identity signing primitive;
the equality holds for any primitive since the signed messages coincide). -/
theorem claim_C8_counterexample :
    dumps (.obj []) ≠ ""
    ∧ sign_request (fun bs => bs) "a" "GET" "/p" (some []) 0
      = sign_request (fun bs => bs) "a" "GET" "/p" none 0 :=
  ⟨by decide, by decide⟩

/-- C8 (amended): for every deterministic signing primitive that produces
signature bytes and is injective on signed messages, and for every pair of
bodies whose effective serializations — the canonical JSON for a present
non-empty body, the empty string for an absent or empty body — have distinct
SHA-256 digests, the authentication headers differ (already at the same
timestamp). -/
theorem claim_C8_distinct_digests (edSign : List Nat → List Nat)
    (agent method path : String) (now : Nat)
    (b1 b2 : Option (List (String × Json)))
    (hbytes : ∀ s : String, ∀ b ∈ edSign (utf8Bytes s), b < 256)
    (hinj : ∀ s1 s2 : String,
      edSign (utf8Bytes s1) = edSign (utf8Bytes s2) → s1 = s2)
    (hd : sha256hexStr (bodyStr b1) ≠ sha256hexStr (bodyStr b2)) :
    sign_request edSign agent method path b1 now
      ≠ sign_request edSign agent method path b2 now := by
  intro h
  unfold sign_request at h
  dsimp only at h
  have hdata := congrArg String.data h
  simp only [String.data_append] at hdata
  have hb64 : b64urlNoPad (edSign (utf8Bytes (signingMessage method path b1 now)))
      = b64urlNoPad (edSign (utf8Bytes (signingMessage method path b2 now))) :=
    List.append_cancel_left hdata
  have hdec := congrArg b64urlDecode hb64
  rw [b64_decode_encode _ (hbytes (signingMessage method path b1 now)),
      b64_decode_encode _ (hbytes (signingMessage method path b2 now))] at hdec
  have hmsg := hinj _ _ hdec
  unfold signingMessage at hmsg
  have hmdata := congrArg String.data hmsg
  simp only [String.data_append] at hmdata
  exact hd (String.ext (List.append_cancel_left hmdata))

/-- Witness for C8 at the identity primitive (signature bytes are the message
bytes, which are below 256 and injective because UTF-8 decoding recovers the
message): the absent body and `{"a": 1}` have digests of `""` and
`"{\x22a\x22:1}"`, which differ, so the headers differ. -/
theorem claim_C8_distinct_digests_witness :
    sign_request (fun bs => bs) "a" "GET" "/p" none 0
      ≠ sign_request (fun bs => bs) "a" "GET" "/p" (some [("a", .num 1)]) 0 :=
  claim_C8_distinct_digests (fun bs => bs) "a" "GET" "/p" 0 none
    (some [("a", .num 1)]) (fun s => utf8Bytes_lt s)
    (fun s1 s2 hss => utf8Bytes_inj hss) (by decide)

end MoltBridge
